import Mathlib

/-!
Verification of the BankAPI statement-parsing pipeline
(`src/services/statement_service.py`, data model in
`src/models/statement_models.py`).

The Python code is shallowly embedded: Python `float` values become exact
rationals (`ℚ`), strings stay strings (operations are re-implemented by
structural recursion over `List Char` so that every definition evaluates
inside the kernel), fallible code returns `Except String`/`Option`, and
wall-clock readings (`time.time()`, `datetime.utcnow()`, `datetime.now().year`)
become an explicit environment record `Env`.
-/

attribute [local semireducible] Rat.add Rat.mul Rat.inv Rat.sub

namespace BankAPI

/-- Decidable equality for `Except`, needed to evaluate pipeline results. -/
instance {ε α : Type} [DecidableEq ε] [DecidableEq α] : DecidableEq (Except ε α) := fun a b =>
  match a, b with
  | Except.error e, Except.error f =>
    if h : e = f then Decidable.isTrue (by rw [h]) else Decidable.isFalse (fun c => by cases c; exact h rfl)
  | Except.ok x, Except.ok y =>
    if h : x = y then Decidable.isTrue (by rw [h]) else Decidable.isFalse (fun c => by cases c; exact h rfl)
  | Except.error _, Except.ok _ => Decidable.isFalse (fun c => by cases c)
  | Except.ok _, Except.error _ => Decidable.isFalse (fun c => by cases c)

/-! ## String primitives (models of the Python string operations used by the service) -/

/-- Substring test at the level of character lists: `needle` occurs contiguously in the
list. Models Python's `needle in hay`. -/
def containsList (needle : List Char) : List Char → Bool
  | [] => needle.isPrefixOf []
  | c :: cs => needle.isPrefixOf (c :: cs) || containsList needle cs

/-- Python's `sub in s` substring operator. -/
def strContains (hay sub : String) : Bool := containsList sub.data hay.data

/-- Python's `s.startswith(pre)`. -/
def strStartsWith (s pre : String) : Bool := pre.data.isPrefixOf s.data

/-- Whitespace trimming on character lists. -/
def trimChars (cs : List Char) : List Char :=
  ((cs.dropWhile Char.isWhitespace).reverse.dropWhile Char.isWhitespace).reverse

/-- Python's `s.strip()`. -/
def pyStrip (s : String) : String := String.mk (trimChars s.data)

/-- Split on a single separator character, keeping empty pieces.
Models Python's `s.split(sep)` for a one-character separator. -/
def splitOnCharAux (sep : Char) : List Char → List Char → List (List Char)
  | [], cur => [cur.reverse]
  | c :: cs, cur => if c = sep then cur.reverse :: splitOnCharAux sep cs [] else splitOnCharAux sep cs (c :: cur)

/-- Python's `s.split(sep)` for a one-character separator `sep`. -/
def pySplitChar (s : String) (sep : Char) : List String :=
  (splitOnCharAux sep s.data []).map String.mk

/-- Split on runs of whitespace, used below with empty pieces filtered out. -/
def splitWsAux : List Char → List Char → List (List Char)
  | [], cur => [cur.reverse]
  | c :: cs, cur => if c.isWhitespace then cur.reverse :: splitWsAux cs [] else splitWsAux cs (c :: cur)

/-- Python's `s.split()` (split on whitespace, dropping empty pieces). -/
def pySplitWs (s : String) : List String :=
  ((splitWsAux s.data []).filter (fun p => p ≠ [])).map String.mk

/-- Split on a multi-character separator, left to right, non-overlapping.
The `Nat` argument is fuel (always called with the length of the list, which
suffices because a nonempty separator consumes at least one character). -/
def splitStrFuel (sep : List Char) : Nat → List Char → List Char → List (List Char)
  | _, [], cur => [cur.reverse]
  | 0, cs, cur => [cur.reverse ++ cs]
  | fuel + 1, c :: cs, cur =>
    if sep.isPrefixOf (c :: cs) then
      cur.reverse :: splitStrFuel sep fuel ((c :: cs).drop sep.length) []
    else splitStrFuel sep fuel cs (c :: cur)

/-- Python's `s.split(sep)` for a (nonempty) multi-character separator. -/
def pySplitStr (s sep : String) : List String :=
  (splitStrFuel sep.data s.data.length s.data []).map String.mk

/-- Replace every (non-overlapping, left-to-right) occurrence of `old` by `new`.
The `Nat` argument is fuel, always called with the length of the list; every call
site uses a nonempty `old`, so the fuel suffices. -/
def replaceFuel (old new : List Char) : Nat → List Char → List Char
  | _, [] => []
  | 0, cs => cs
  | fuel + 1, c :: cs =>
    if old.isPrefixOf (c :: cs) then new ++ replaceFuel old new fuel ((c :: cs).drop old.length)
    else c :: replaceFuel old new fuel cs

/-- Python's `s.replace(old, new)` (all occurrences). -/
def pyReplace (s old new : String) : String :=
  String.mk (replaceFuel old.data new.data s.data.length s.data)

/-- Python's `' '.join(parts)`-style joining. -/
def joinWith (sep : String) : List String → String
  | [] => ""
  | [s] => s
  | s :: rest => s ++ sep ++ joinWith sep rest

/-- Python's `s.lower()` (the service only ever lowercases ASCII text). -/
def pyLower (s : String) : String := String.mk (s.data.map Char.toLower)

/-- Python's `s.title()`: the first alphabetic character of every alphabetic run is
uppercased, the rest lowercased. -/
def pyTitle (s : String) : String :=
  String.mk ((s.data.foldl
    (fun (acc : Bool × List Char) c =>
      if c.isAlpha then (true, acc.2 ++ [if acc.1 then c.toLower else c.toUpper])
      else (false, acc.2 ++ [c]))
    (false, [])).2)

/-- Python's `s[:n]` slice. -/
def pyTake (s : String) (n : Nat) : String := String.mk (s.data.take n)

/-- Python's `s[n:]` slice. -/
def pyDrop (s : String) (n : Nat) : String := String.mk (s.data.drop n)

/-- Python's `s.isdigit()` (for the ASCII inputs that occur here). -/
def pyIsDigit (s : String) : Bool := s ≠ "" && s.data.all Char.isDigit

/-! ## Numeric parsing (models of Python `int(...)` and `float(...)`) -/

/-- Value of a list of decimal digit characters. -/
def digitsToNat (ds : List Char) : Nat := ds.foldl (fun a c => 10 * a + (c.toNat - 48)) 0

/-- Python's `int(s)` on the string shapes that occur here: optional surrounding
whitespace, optional sign, then decimal digits. (PEP-515 underscore grouping is
not modelled; no input in this code base contains it.) Returns `none` where
Python raises `ValueError`. -/
def pyInt (s : String) : Option ℤ :=
  let cs := trimChars s.data
  let p : ℤ × List Char :=
    match cs with
    | '-' :: rest => (-1, rest)
    | '+' :: rest => (1, rest)
    | _ => (1, cs)
  if p.2 ≠ [] ∧ p.2.all Char.isDigit then some (p.1 * (digitsToNat p.2 : ℤ)) else none

/-- Python's `float(s)` on plain decimal literals: optional surrounding whitespace,
optional sign, digits with at most one decimal point and at least one digit
overall. (Exponent forms, `inf`/`nan` and underscore grouping are not modelled;
no input in this code base produces them.) Returns `none` where Python raises
`ValueError`. Values are exact rationals. -/
def pyFloat (s : String) : Option ℚ :=
  let cs := trimChars s.data
  let p : ℚ × List Char :=
    match cs with
    | '-' :: rest => (-1, rest)
    | '+' :: rest => (1, rest)
    | _ => (1, cs)
  let ip := p.2.takeWhile Char.isDigit
  let rest := p.2.drop ip.length
  match rest with
  | [] => if ip = [] then none else some (p.1 * (digitsToNat ip : ℚ))
  | '.' :: rest2 =>
    let fp := rest2.takeWhile Char.isDigit
    if rest2.drop fp.length ≠ [] then none
    else if ip = [] ∧ fp = [] then none
    else some (p.1 * ((digitsToNat ip : ℚ) + (digitsToNat fp : ℚ) / (10 : ℚ) ^ fp.length))
  | _ => none

/-! ## Data model (from `src/models/statement_models.py`) -/

/-- Model of `ValidationDetails`. -/
structure ValidationDetails where
  balances_match : Bool
  all_transactions_processed : Bool
  date_range_covered : String
  missing_transactions : List String := []
  rounding_differences : ℚ := 0
  deriving DecidableEq

/-- Model of `SessionMetadata`. -/
structure SessionMetadata where
  user_id : String := "user_12345"
  session_id : String := "session_67890"
  deriving DecidableEq

/-- Model of `ErrorTracking`. -/
structure ErrorTracking where
  unprocessed_sections : List String := []
  parsing_errors : List String := []
  deriving DecidableEq

/-- Model of `TransactionFlag`. -/
structure TransactionFlag where
  is_high_value : Bool := false
  reason : String := ""
  deriving DecidableEq

/-- Model of `Transaction`. Amounts and balances are exact rationals. -/
structure Transaction where
  id : ℤ
  Date : String
  Description : String
  Transaction_Type : String
  Category : String
  Amount : ℚ
  Balance : ℚ
  Category_Confidence : ℚ := 0
  Location : String := ""
  Notes : String := ""
  Flagged : TransactionFlag := {}
  deriving DecidableEq

/-- Model of `LargestTransaction`. -/
structure LargestTransaction where
  Description : String
  Amount : ℚ
  Date : String
  deriving DecidableEq

/-- Model of `SpendingAnalysis`. -/
structure SpendingAnalysis where
  total_spent_on_subscriptions : ℚ
  largest_transaction : LargestTransaction
  average_daily_spending : ℚ
  deriving DecidableEq

/-- Model of `CheckingSummary`. -/
structure CheckingSummary where
  Beginning_Balance : ℚ
  Deposits_and_Additions : ℚ
  Electronic_Withdrawals : ℚ
  Ending_Balance : ℚ
  deriving DecidableEq

/-- Model of `TotalTransactions`. -/
structure TotalTransactions where
  Total_Deposits : ℚ
  Recurring_Deposits : ℚ
  One_Off_Deposits : ℚ
  Total_Withdrawals : ℚ
  Recurring_Withdrawals : ℚ
  Irregular_Withdrawals : ℚ
  Net_Change : ℚ
  deriving DecidableEq

/-- Model of `FileMetadata`. -/
structure FileMetadata where
  file_name : String
  file_size : String
  file_hash : String := ""
  deriving DecidableEq

/-- Model of `StatementMetadata`. -/
structure StatementMetadata where
  bank_name : String
  account_number : String
  account_holder : String := "Anan Almasri"
  year : String
  month : String
  currency : String := "USD"
  parsed_by : String := "BankStatementParser v1.0"
  parsed_on : String
  processing_duration : String
  timezone : String := "UTC"
  validation_status : String
  validation_details : ValidationDetails
  session_metadata : SessionMetadata := {}
  deriving DecidableEq

/-- Model of `StatementData`. -/
structure StatementData where
  metadata : StatementMetadata
  file_metadata : FileMetadata
  Total_Transactions : TotalTransactions
  Checking_Summary : CheckingSummary
  Transaction_Detail : List Transaction
  spending_analysis : SpendingAnalysis
  error_tracking : ErrorTracking
  deriving DecidableEq

/-- The four metadata fields assembled by `_extract_statement_metadata` before the
orchestrator adds timestamps and validation results. -/
structure MetadataFields where
  bank_name : String
  account_number : String
  year : String
  month : String
  deriving DecidableEq

/-- Wall-clock readings the pipeline observes: `time.time()` at the end of parsing,
the formatted `datetime.utcnow()` stamp, and `datetime.now().year`. They are inputs
of the model because they are inputs of the computation. -/
structure Env where
  endTime : ℚ
  nowUtc : String
  nowYear : ℤ
  deriving DecidableEq

/-! ## Summary extractor (`extract_summary`, `_extract_amount`) -/

/-- Model of `StatementService._extract_amount`: strip the four label phrases plus
`$` and `,`, strip whitespace, parse as a float; `None` on failure. -/
def extractAmount (text : String) : Option ℚ :=
  pyFloat (pyStrip (pyReplace (pyReplace (pyReplace (pyReplace (pyReplace (pyReplace
    text "Beginning Balance" "") "Ending Balance" "") "Deposits and Additions" "")
    "Electronic Withdrawals" "") "$" "") "," ""))

/-- One iteration of the line loop in `extract_summary`: the `if/elif` chain that
updates one summary field when its label occurs in the (stripped) line and the
remainder parses as a number. -/
def summaryStep (summary : CheckingSummary) (rawLine : String) : CheckingSummary :=
  let line := pyStrip rawLine
  if strContains line "Beginning Balance" then
    match extractAmount line with
    | some amount => { summary with Beginning_Balance := amount }
    | none => summary
  else if strContains line "Deposits and Additions" then
    match extractAmount line with
    | some amount => { summary with Deposits_and_Additions := amount }
    | none => summary
  else if strContains line "Electronic Withdrawals" then
    match extractAmount line with
    | some amount => { summary with Electronic_Withdrawals := amount }
    | none => summary
  else if strContains line "Ending Balance" then
    match extractAmount line with
    | some amount => { summary with Ending_Balance := amount }
    | none => summary
  else summary

/-- Model of `StatementService.extract_summary`: fold the `if/elif` chain over the
lines of the text, starting from all-zero defaults. -/
def extractSummary (text : String) : CheckingSummary :=
  (pySplitChar text '\n').foldl summaryStep
    { Beginning_Balance := 0, Deposits_and_Additions := 0, Electronic_Withdrawals := 0, Ending_Balance := 0 }

/-! ## Categorizer (`_categorize_transaction`) -/

/-- Model of `StatementService._categorize_transaction`: the type is `"Deposit"`
for strictly positive amounts and `"Withdrawal"` otherwise; the category is the
first entry of the ordered keyword table any of whose keywords occurs in the
lowercased description, title-cased, defaulting to `"Other"`. -/
def categorizeTransaction (description : String) (amount : ℚ) : String × String :=
  let descriptionL := pyLower description
  let categories : List (String × List String) := [
    ("salary", ["jobr payrol", "salary", "paycheck"]),
    ("transfer", ["transfer", "zelle"]),
    ("subscription", ["premium", "recurring"]),
    ("payment", ["payment", "pmt"]),
    ("car rental", ["turo"]),
    ("credit card", ["applecard", "discover", "american express"])]
  let transaction_type := if amount > 0 then "Deposit" else "Withdrawal"
  let category :=
    match categories.find? (fun c => c.2.any (fun keyword => strContains descriptionL keyword)) with
    | some c => pyTitle c.1
    | none => "Other"
  (transaction_type, category)

/-! ## Date validation (`_is_valid_date`) -/

/-- The two-part split performed by `_is_valid_date`: a slashless token is split
into its first two characters and the remainder, otherwise the token is split at
the slashes. -/
def dateParts (dateStr : String) : List String :=
  if !(strContains dateStr "/") then [pyTake dateStr 2, pyDrop dateStr 2]
  else pySplitChar dateStr '/'

/-- Model of `StatementService._is_valid_date`: exactly two parts, both parsing as
integers, with month in `[1,12]` and day in `[1,31]`; every failure (including an
`int()` exception) yields `false`. -/
def isValidDate (dateStr : String) : Bool :=
  match dateParts dateStr with
  | [a, b] =>
    match pyInt a, pyInt b with
    | some month, some day => decide (1 ≤ month ∧ month ≤ 12 ∧ 1 ≤ day ∧ day ≤ 31)
    | _, _ => false
  | _ => false

/-! ## Transaction extractor (`extract_transactions`) -/

/-- The `Transaction(...)` record built by `extract_transactions` for an accepted
line: sequential id, raw date token, repaired description, the categorizer's
type and category, and the parsed amount and balance. -/
def mkTransaction (nextId : ℤ) (date description : String) (amount balance : ℚ) : Transaction :=
  { id := nextId, Date := date, Description := description,
    Transaction_Type := (categorizeTransaction description amount).1,
    Category := (categorizeTransaction description amount).2,
    Amount := amount, Balance := balance,
    Category_Confidence := 0, Location := "", Notes := "", Flagged := {} }

/-- Parse one candidate transaction line (the body of the `try` block inside the
line loop of `extract_transactions`): at least four whitespace tokens, a valid
date first token, last token the balance and second-to-last the signed amount
(with `$`/`,` stripped, parsed as floats), the middle tokens joined into the
description (with the OCR repairs applied), then categorized. `none` both for a
line that is simply skipped (too few tokens, bad date) and for a line whose
float parsing raises (skipped with a warning). -/
def parseTransactionLine (line : String) (nextId : ℤ) : Option Transaction :=
  let parts := pySplitWs line
  if parts.length ≥ 4 then
    if !(isValidDate (parts.headD "")) then none
    else
      match pyFloat (pyReplace (pyReplace (parts.getLastD "") "$" "") "," ""),
            pyFloat (pyReplace (pyReplace (parts.getD (parts.length - 2) "") "$" "") "," "") with
      | some balance, some amount =>
        some (mkTransaction nextId (parts.headD "")
          (pyReplace (pyReplace (pyReplace (joinWith " " ((parts.drop 1).take (parts.length - 3)))
            "1D:" "ID:") "Jom" "Jpm") "Pmt__" "Pmt ")
          amount balance)
      | _, _ => none
  else none

/-- State of the line loop of `extract_transactions`: the `transaction_start`
flag, the next sequential id, and the transactions accepted so far. -/
structure ExtState where
  start : Bool
  nextId : ℤ
  acc : List Transaction
  deriving DecidableEq

/-- One iteration of the line loop of `extract_transactions`: skip blank lines,
enter the table on "TRANSACTION DETAIL", skip the column-header line, and inside
the table (for lines not starting with "Ending Balance") skip the bare
"Beginning Balance" line and the known noise literal, then try to parse the line
as a transaction. -/
def processLine (st : ExtState) (rawLine : String) : ExtState :=
  let line := pyStrip rawLine
  if line = "" then st
  else if strContains line "TRANSACTION DETAIL" then { st with start := true }
  else if strContains line "DATE" && strContains line "DESCRIPTION" &&
          strContains line "AMOUNT" && strContains line "BALANCE" then st
  else if st.start && !(strStartsWith line "Ending Balance") then
    if line = "Beginning Balance" || strContains line "$5,993.00" then st
    else
      match parseTransactionLine line st.nextId with
      | some t => { st with nextId := st.nextId + 1, acc := st.acc ++ [t] }
      | none => st
  else st

/-- The sort key of `extract_transactions`:
`(int(x.Date.split('/')[0]), int(x.Date.split('/')[1]))`. Evaluation order follows
CPython: the first component is computed before the second is indexed, so a
non-integer token raises `ValueError` and a missing second slash-part raises
`IndexError`. -/
def dateKey (d : String) : Except String (ℤ × ℤ) :=
  let parts := pySplitChar d '/'
  match pyInt (parts.headD "") with
  | none => Except.error "invalid literal for int() with base 10"
  | some m =>
    match parts[1]? with
    | none => Except.error "list index out of range"
    | some p1 =>
      match pyInt p1 with
      | none => Except.error "invalid literal for int() with base 10"
      | some dd => Except.ok (m, dd)

/-- CPython's `sorted(..., key=...)` computes every key up front; this is that key
pass, pairing each transaction with its `(month, day)` key or propagating the
first exception. -/
def annotateKeys : List Transaction → Except String (List (Transaction × ℤ × ℤ))
  | [] => Except.ok []
  | t :: ts =>
    match dateKey t.Date with
    | Except.error e => Except.error e
    | Except.ok k =>
      match annotateKeys ts with
      | Except.error e => Except.error e
      | Except.ok rest => Except.ok ((t, k) :: rest)

/-- Lexicographic order on `(month, day)` keys (Python tuple comparison). -/
def keyLe (a b : ℤ × ℤ) : Bool := decide (a.1 < b.1 ∨ (a.1 = b.1 ∧ a.2 ≤ b.2))

/-- Stable insertion: the new element goes after every element whose key is less
than or equal to its own. -/
def insertByKey (x : Transaction × ℤ × ℤ) : List (Transaction × ℤ × ℤ) → List (Transaction × ℤ × ℤ)
  | [] => [x]
  | y :: ys => if keyLe y.2 x.2 then y :: insertByKey x ys else x :: y :: ys

/-- Stable sort by key (the semantics of CPython's stable `sorted`): elements are
inserted in original order, each after all elements with a smaller-or-equal key. -/
def sortByKey (l : List (Transaction × ℤ × ℤ)) : List (Transaction × ℤ × ℤ) :=
  l.foldl (fun acc x => insertByKey x acc) []

/-- Model of `StatementService.extract_transactions`: run the line loop, then
return the transactions sorted by `(month, day)`; an exception raised while
computing a sort key propagates (the `sorted` call is outside any `try`). -/
def extractTransactions (text : String) : Except String (List Transaction) :=
  let parsed := ((pySplitChar text '\n').foldl processLine
    { start := false, nextId := 1, acc := [] }).acc
  match annotateKeys parsed with
  | Except.error e => Except.error e
  | Except.ok keyed => Except.ok ((sortByKey keyed).map Prod.fst)

/-! ## Reconciler (`_validate_balances`, `_get_date_range`) -/

/-- Model of `StatementService._validate_balances`. The `except` branch returning
`"Validation Failed"` is unreachable in the model: the folded addition is total. -/
def validateBalances (beginning_balance ending_balance : ℚ) (transactions : List Transaction) : String :=
  let calculated_ending := transactions.foldl (fun acc t => acc + t.Amount) beginning_balance
  if |calculated_ending - ending_balance| < 1/100 then "Reconciled" else "Unreconciled"

/-- The expression `validation_status == "Reconciled"` used by
`parse_statement_text` to fill `ValidationDetails.balances_match`. -/
def balancesMatchFlag (validation_status : String) : Bool := validation_status == "Reconciled"

/-- Sum of the amounts of a transaction list (`beginning + Σ aᵢ` appears in the
reconciliation law). -/
def amountSum (transactions : List Transaction) : ℚ := (transactions.map Transaction.Amount).sum

/-- The `(month, day)` key list of `_get_date_range`, computed per transaction in
order; an `int()`/indexing exception propagates. -/
def dateKeys : List Transaction → Except String (List (ℤ × ℤ))
  | [] => Except.ok []
  | t :: ts =>
    match dateKey t.Date with
    | Except.error e => Except.error e
    | Except.ok k =>
      match dateKeys ts with
      | Except.error e => Except.error e
      | Except.ok rest => Except.ok (k :: rest)

/-- Python tuple `<` on `(month, day)` keys. -/
def pairLt (a b : ℤ × ℤ) : Bool := decide (a.1 < b.1 ∨ (a.1 = b.1 ∧ a.2 < b.2))

/-- `%02d` formatting of the month/day components. -/
def pad2 (n : ℤ) : String := if 0 ≤ n ∧ n < 10 then "0" ++ toString n else toString n

/-- Model of `StatementService._get_date_range`: empty input yields the empty
string, otherwise the lexicographic min and max `(month, day)` pairs are
formatted with the current wall-clock year at both endpoints. -/
def getDateRange (transactions : List Transaction) (nowYear : ℤ) : Except String String :=
  match transactions with
  | [] => Except.ok ""
  | _ :: _ =>
    match dateKeys transactions with
    | Except.error e => Except.error e
    | Except.ok [] => Except.ok ""
    | Except.ok (k :: ks) =>
      let s := ks.foldl (fun m x => if pairLt x m then x else m) k
      let e := ks.foldl (fun m x => if pairLt m x then x else m) k
      Except.ok (toString nowYear ++ "-" ++ pad2 s.1 ++ "-" ++ pad2 s.2 ++ " to " ++
                 toString nowYear ++ "-" ++ pad2 e.1 ++ "-" ++ pad2 e.2)

/-! ## Annotator (`_get_location_from_description`, `_get_category_confidence`,
`_get_transaction_notes`, `_flag_transactions`) -/

/-- Model of `StatementService._get_location_from_description`. -/
def getLocationFromDescription (description : String) : String :=
  if strContains description "OH" then "Ohio, USA" else ""

/-- Model of `StatementService._get_category_confidence`. -/
def getCategoryConfidence (description : String) (category : String) : ℚ :=
  let descriptionL := pyLower description
  if category = "Salary" ∧ (strContains descriptionL "payrol" = true ∨ strContains descriptionL "salary" = true) then 99/100
  else if category = "Transfer" ∧ (strContains descriptionL "zelle" = true ∨ strContains descriptionL "transfer" = true) then 98/100
  else if category = "Subscription" ∧ strContains descriptionL "recurring" = true then 95/100
  else if category = "Payment" ∧ strContains descriptionL "payment" = true then 95/100
  else if category = "Car Rental" ∧ strContains descriptionL "turo" = true then 94/100
  else 85/100

/-- Model of `StatementService._get_transaction_notes`: the ordered `if/elif`
chain over description keywords and the `|amount| > 1000` threshold. -/
def getTransactionNotes (t : Transaction) : String :=
  let description := pyLower t.Description
  let amount := t.Amount
  if strContains description "zelle" then "Matched with Zelle transfer description."
  else if strContains description "transfer" && strContains description "from" then
    "Internal transfer to checking account."
  else if strContains description "recurring" then "Recurring " ++ pyLower t.Category ++ " payment."
  else if strContains description "payrol" then "Direct deposit from employer."
  else if |amount| > 1000 then t.Category ++ " flagged for high amount."
  else if strContains description "turo" then "Car rental income from Turo."
  else if strContains description "premium" then
    "Subscription payment for " ++ joinWith " " ((pySplitWs description).take 2) ++ "."
  else ""

/-- Model of the per-transaction body of `StatementService._flag_transactions`. -/
def flagTransaction (t : Transaction) : Transaction :=
  if |t.Amount| > 4000 then
    { t with Flagged := { is_high_value := true, reason := "Transaction exceeds $4000" } }
  else t

/-- The enrichment loop of `parse_statement_text`: location, category confidence
and notes are filled in, in that order. -/
def enrichTransaction (t : Transaction) : Transaction :=
  let t1 := { t with Location := getLocationFromDescription t.Description }
  let t2 := { t1 with Category_Confidence := getCategoryConfidence t1.Description t1.Category }
  { t2 with Notes := getTransactionNotes t2 }

/-! ## Aggregator (`_calculate_totals` is unused by the pipeline;
`_analyze_recurring_transactions`, `_calculate_spending_analysis`) -/

/-- Model of `StatementService._analyze_recurring_transactions`. -/
def analyzeRecurringTransactions (transactions : List Transaction) : TotalTransactions :=
  let recurring_deposits := (transactions.filterMap (fun t =>
    if 0 < t.Amount ∧ (strContains (pyLower t.Description) "recurring" = true ∨
                       strContains (pyLower t.Description) "payrol" = true)
    then some t.Amount else none)).sum
  let total_deposits := (transactions.filterMap (fun t =>
    if 0 < t.Amount then some t.Amount else none)).sum
  let recurring_withdrawals := (transactions.filterMap (fun t =>
    if t.Amount < 0 ∧ strContains (pyLower t.Description) "recurring" = true
    then some t.Amount else none)).sum
  let total_withdrawals := (transactions.filterMap (fun t =>
    if t.Amount < 0 then some t.Amount else none)).sum
  { Total_Deposits := total_deposits,
    Recurring_Deposits := recurring_deposits,
    One_Off_Deposits := total_deposits - recurring_deposits,
    Total_Withdrawals := total_withdrawals,
    Recurring_Withdrawals := recurring_withdrawals,
    Irregular_Withdrawals := total_withdrawals - recurring_withdrawals,
    Net_Change := total_deposits + total_withdrawals }

/-- Python's `max(transactions, key=lambda x: abs(x.Amount))`: `none` on the empty
list (where Python raises), otherwise the first transaction of maximal absolute
amount. -/
def pyMaxByAbs : List Transaction → Option Transaction
  | [] => none
  | t :: ts => some (ts.foldl (fun best x => if |best.Amount| < |x.Amount| then x else best) t)

/-- Model of `StatementService._calculate_spending_analysis`. The `max()` call on
an empty list and the `split()[0]` on an empty description raise, and the
function's own `except` re-raises them wrapped in its failure message. -/
def calculateSpendingAnalysis (transactions : List Transaction) : Except String SpendingAnalysis :=
  let total_subscriptions := (transactions.filterMap (fun t =>
    if t.Category = "Subscription" ∧ t.Amount < 0 then some t.Amount else none)).sum
  match pyMaxByAbs transactions with
  | none => Except.error "Failed to calculate spending analysis: max() arg is an empty sequence"
  | some largest_trans =>
    match (pySplitWs largest_trans.Description).head? with
    | none => Except.error "Failed to calculate spending analysis: list index out of range"
    | some d0 =>
      let withdrawals := transactions.filterMap (fun t =>
        if t.Amount < 0 then some t.Amount else none)
      let avg_daily := if withdrawals ≠ [] then (withdrawals.map (fun x => |x|)).sum / 30 else 0
      Except.ok { total_spent_on_subscriptions := total_subscriptions,
                  largest_transaction := { Description := d0, Amount := largest_trans.Amount,
                                           Date := largest_trans.Date },
                  average_daily_spending := avg_daily }

/-! ## Metadata extractor (`_extract_statement_metadata`) -/

/-- Leading run of decimal digits. -/
def digitRun (cs : List Char) : List Char := cs.takeWhile Char.isDigit

/-- Model of `re.search(lit + r'\s*(\d+)', line)`: the capture of the leftmost
position where the literal is followed (after optional whitespace) by at least
one digit; the digits are captured greedily. -/
def searchLabelDigits (lit : List Char) : List Char → Option String
  | [] => none
  | c :: cs =>
    if lit.isPrefixOf (c :: cs) then
      let after := ((c :: cs).drop lit.length).dropWhile Char.isWhitespace
      let ds := digitRun after
      if ds ≠ [] then some (String.mk ds) else searchLabelDigits lit cs
    else searchLabelDigits lit cs

/-- Model of `re.search(r'(\d{n})', line)` for an exact repetition count: the
first position with at least `n` consecutive digits, capturing exactly `n`. -/
def searchDigitsExact (n : Nat) : List Char → Option String
  | [] => none
  | c :: cs =>
    if n ≤ (digitRun (c :: cs)).length then some (String.mk ((c :: cs).take n))
    else searchDigitsExact n cs

/-- Model of `re.search(r'(\d{n,})', line)`: the first position with at least `n`
consecutive digits, capturing the whole (greedy) run. -/
def searchDigitsAtLeast (n : Nat) : List Char → Option String
  | [] => none
  | c :: cs =>
    let run := digitRun (c :: cs)
    if n ≤ run.length then some (String.mk run) else searchDigitsAtLeast n cs

/-- The ordered account-number pattern list of `_extract_statement_metadata`:
labeled-with-colon, labeled-without-colon, bare 12 digits, bare 9-or-more
digits; the first pattern that matches wins. -/
def accountNumberSearch (line : String) : Option String :=
  match searchLabelDigits ("Account Number:".data) line.data with
  | some n => some n
  | none =>
    match searchLabelDigits ("Account Number".data) line.data with
    | some n => some n
    | none =>
      match searchDigitsExact 12 line.data with
      | some n => some n
      | none => searchDigitsAtLeast 9 line.data

/-- The account-number update attempted for one (stripped) line: patterns are
tried only when the line contains the "Account Number" label, and `none` means
the line leaves the field untouched. -/
def accountUpdate (line : String) : Option String :=
  if strContains line "Account Number:" = true ∨ strContains line "Account Number" = true then
    accountNumberSearch line
  else none

/-- The fixed calendar-month table of `_extract_statement_metadata`. -/
def monthNames : List String :=
  ["January", "February", "March", "April", "May", "June", "July", "August",
   "September", "October", "November", "December"]

/-- `str(n).zfill(2)`. -/
def zfill2 (n : Nat) : String := if n < 10 then "0" ++ toString n else toString n

/-- The statement-period update attempted for one (stripped) line: requires
"through" plus some month name in the line; the text after the first "through"
is the period end date; the first month name (in table order) found there gives
the 2-digit month, and the first four characters after the last ", " give the
year when they are all digits. `none` means the line leaves both fields
untouched; `some (m, none)` sets only the month. -/
def periodUpdate (line : String) : Option (String × Option String) :=
  if strContains line "through" = true ∧ monthNames.any (fun m => strContains line m) = true then
    let end_date := pyStrip ((pySplitStr line "through").getD 1 "")
    match monthNames.findIdx? (fun m => strContains end_date m) with
    | some idx =>
      let year_match := pyTake (pyStrip ((pySplitStr end_date ", ").getLastD "")) 4
      some (zfill2 (idx + 1), if pyIsDigit year_match = true then some year_match else none)
    | none => none
  else none

/-- One iteration of the line loop of `_extract_statement_metadata`: the
account-number block and the statement-period block both run on the stripped
line. -/
def metadataStep (md : MetadataFields) (rawLine : String) : MetadataFields :=
  let line := pyStrip rawLine
  let md1 :=
    match accountUpdate line with
    | some num => { md with account_number := num }
    | none => md
  match periodUpdate line with
  | some (m, some y) => { md1 with month := m, year := y }
  | some (m, none) => { md1 with month := m }
  | none => md1

/-- Model of `StatementService._extract_statement_metadata`: the initial dict sets
`bank_name` to the constant `"chasebank"` and the other three fields to the
empty string, then the line loop updates account number and period. -/
def extractStatementMetadata (text : String) : MetadataFields :=
  (pySplitChar text '\n').foldl metadataStep
    { bank_name := "chasebank", account_number := "", year := "", month := "" }

/-! ## Orchestrator (`parse_statement_text`) -/

/-- Stand-in model of `hashlib.sha256(content).hexdigest()`: a deterministic
injective encoding of the byte list. No claim inspects the digest value; only
that it is a function of the bytes matters. -/
def sha256Hex (content : List Nat) : String :=
  "sha256-" ++ toString content.length ++ content.foldl (fun acc b => acc ++ "-" ++ toString b) ""

/-- Model of `f"{x:.1f} seconds"`: decimal rounding to one fractional digit.
(The tie behavior of binary floating point formatting is not observable on the
inputs considered; ties round up here.) -/
def fmt1Seconds (q : ℚ) : String :=
  let m : ℤ := Rat.floor (q * 10 + 1/2)
  let a := m.natAbs
  (if m < 0 then "-" else "") ++ toString (a / 10) ++ "." ++ toString (a % 10) ++ " seconds"

/-- Model of `StatementService.parse_statement_text`: metadata extraction,
timestamping from the environment, summary and transaction extraction, flagging,
recurring analysis, spending analysis, enrichment, balance validation, and
assembly of the final `StatementData`. A stage exception is re-raised wrapped in
the orchestrator's failure message. -/
def parseStatementText (text : String) (startTime : ℚ) (fileContent : List Nat) (env : Env) :
    Except String StatementData :=
  let md := extractStatementMetadata text
  let processing_duration := fmt1Seconds (env.endTime - startTime)
  let parsed_on := env.nowUtc
  let summary := extractSummary text
  match extractTransactions text with
  | Except.error e => Except.error ("Failed to parse statement text: " ++ e)
  | Except.ok transactions0 =>
    let transactions1 := transactions0.map flagTransaction
    let totals := analyzeRecurringTransactions transactions1
    match calculateSpendingAnalysis transactions1 with
    | Except.error e => Except.error ("Failed to parse statement text: " ++ e)
    | Except.ok spending =>
      let transactions2 := transactions1.map enrichTransaction
      let validation_status := validateBalances summary.Beginning_Balance summary.Ending_Balance transactions2
      match getDateRange transactions2 env.nowYear with
      | Except.error e => Except.error ("Failed to parse statement text: " ++ e)
      | Except.ok dr =>
        let validation_details : ValidationDetails :=
          { balances_match := balancesMatchFlag validation_status,
            all_transactions_processed := true,
            date_range_covered := dr,
            missing_transactions := [],
            rounding_differences := |summary.Ending_Balance - (summary.Beginning_Balance + totals.Net_Change)| }
        Except.ok
          { metadata :=
              { bank_name := md.bank_name,
                account_number := md.account_number,
                account_holder := "Anan Almasri",
                year := md.year,
                month := md.month,
                currency := "USD",
                parsed_by := "BankStatementParser v1.0",
                parsed_on := parsed_on,
                processing_duration := processing_duration,
                timezone := "UTC",
                validation_status := validation_status,
                validation_details := validation_details,
                session_metadata := {} },
            file_metadata :=
              { file_name := "statement.pdf", file_size := "0KB", file_hash := sha256Hex fileContent },
            Total_Transactions := totals,
            Checking_Summary := summary,
            Transaction_Detail := transactions2,
            spending_analysis := spending,
            error_tracking := {} }

/-! ## Helper lemmas -/

/-- Folding `+ Amount` from a seed equals the seed plus the amount sum. -/
lemma foldl_amount_eq (l : List Transaction) : ∀ b : ℚ,
    l.foldl (fun acc t => acc + t.Amount) b = b + amountSum l := by
  induction l with
  | nil => intro b; simp [amountSum]
  | cons t ts ih =>
    intro b
    simp only [List.foldl_cons, amountSum, List.map_cons, List.sum_cons] at *
    rw [ih]; ring

/-! ## Claims -/

/-- C1. For every beginning balance B, ending balance E, and list of transactions
with amounts aᵢ, the reconciliation status returned by the Reconciler is
"Reconciled" exactly when |B + Σaᵢ − E| < 0.01 (and "Unreconciled" otherwise),
and the balances_match flag that `parse_statement_text` stores in
`ValidationDetails` (the expression `validation_status == "Reconciled"`) is true
exactly in the "Reconciled" case. -/
theorem C1_reconciliation_law (B E : ℚ) (ts : List Transaction) :
    (validateBalances B E ts = "Reconciled" ↔ |B + amountSum ts - E| < 1/100)
    ∧ (validateBalances B E ts = "Unreconciled" ↔ ¬ (|B + amountSum ts - E| < 1/100))
    ∧ balancesMatchFlag (validateBalances B E ts) = decide (|B + amountSum ts - E| < 1/100) := by
  simp only [validateBalances, balancesMatchFlag]
  rw [foldl_amount_eq]
  by_cases h : |B + amountSum ts - E| < 1/100
  · rw [if_pos h]
    exact ⟨⟨fun _ => h, fun _ => rfl⟩,
           ⟨fun he => absurd he (by decide), fun hn => absurd h hn⟩,
           by rw [decide_eq_true h]; rfl⟩
  · rw [if_neg h]
    exact ⟨⟨fun he => absurd he (by decide), fun hc => absurd hc h⟩,
           ⟨fun _ => h, fun _ => rfl⟩,
           by rw [decide_eq_false h]; rfl⟩

/-- C3 (failing input). The date validator deliberately accepts the slashless
4-digit form "1214", but the sort key of `extract_transactions`
(`x.Date.split('/')[1]`) then raises `IndexError: list index out of range` on
exactly such a date, so the extractor raises instead of returning a sorted
list. -/
theorem C3_slashless_date_crashes_sort :
    isValidDate "1214" = true ∧
    extractTransactions "TRANSACTION DETAIL\n1214 FOO REFUND 10.00 100.00" =
      Except.error "list index out of range" := by
  exact ⟨by decide, by decide⟩

/-- C4 (failing input). On the empty transaction list the spending analysis does
not return the 0.0 defaults: `max(transactions, ...)` raises on an empty
sequence and `_calculate_spending_analysis` re-raises it as a `ValueError`. -/
theorem C4_empty_transactions_spending_raises :
    calculateSpendingAnalysis [] =
      Except.error "Failed to calculate spending analysis: max() arg is an empty sequence" := by
  decide

/-- C9 (counterexample). The claim says every token other than literal MM/DD or a
contiguous 4-digit MMDD is rejected, naming 3-digit and 5-digit all-numeric
tokens; but the validator accepts the 3-digit token "123" (read as month 12,
day 3) and the 5-digit token "12031" (read as month 12, day 031). -/
theorem C9_counterexample : isValidDate "123" = true ∧ isValidDate "12031" = true := by
  decide

/-- C9 (amended). The transaction-line date validator accepts a token iff its two
parts — the slash-split halves when a '/' is present, else the first two
characters and the remainder — both parse as integers with month in [1,12] and
day in [1,31]. MM/DD and 4-digit MMDD forms are accepted, but so are other
slashless shapes such as "123" (12/3) and "12031" (12/031); "12345" (day 345)
and multi-slash tokens are rejected. -/
theorem C9_amended_acceptance_characterization :
    (∀ s : String, isValidDate s = true ↔
      ∃ a b : String, ∃ m d : ℤ, dateParts s = [a, b] ∧ pyInt a = some m ∧ pyInt b = some d ∧
        1 ≤ m ∧ m ≤ 12 ∧ 1 ≤ d ∧ d ≤ 31)
    ∧ isValidDate "12/14" = true ∧ isValidDate "1214" = true ∧ isValidDate "123" = true
    ∧ isValidDate "12031" = true ∧ isValidDate "12345" = false ∧ isValidDate "1/2/3" = false := by
  refine ⟨fun s => ?_, by decide, by decide, by decide, by decide, by decide, by decide⟩
  constructor
  · intro h
    rcases hP : dateParts s with _ | ⟨a, _ | ⟨b, _ | ⟨c, l⟩⟩⟩
    · simp only [isValidDate, hP] at h
      exact (Bool.false_ne_true h).elim
    · simp only [isValidDate, hP] at h
      exact (Bool.false_ne_true h).elim
    · rcases hA : pyInt a with _ | m
      · simp only [isValidDate, hP, hA] at h
        exact (Bool.false_ne_true h).elim
      · rcases hB : pyInt b with _ | d
        · simp only [isValidDate, hP, hA, hB] at h
          exact (Bool.false_ne_true h).elim
        · simp only [isValidDate, hP, hA, hB, decide_eq_true_eq] at h
          exact ⟨a, b, m, d, rfl, hA, hB, h.1, h.2.1, h.2.2.1, h.2.2.2⟩
    · simp only [isValidDate, hP] at h
      exact (Bool.false_ne_true h).elim
  · rintro ⟨a, b, m, d, hP, hA, hB, h1, h2, h3, h4⟩
    simp only [isValidDate, hP, hA, hB, decide_eq_true_eq]
    exact ⟨h1, h2, h3, h4⟩

/-- Last element of a list of amounts, with a default for the empty list (used to
state "the last successful update wins"). -/
def lastD : List ℚ → ℚ → ℚ
  | [], d => d
  | a :: l, _ => lastD l a

/-- The Beginning-Balance update contributed by one raw line: the line (stripped)
must contain "Beginning Balance" and parse after label stripping. -/
def bbAmount (rawLine : String) : Option ℚ :=
  let line := pyStrip rawLine
  if strContains line "Beginning Balance" then extractAmount line else none

/-- The Deposits-and-Additions update contributed by one raw line (under the
`elif` priority: only lines not containing "Beginning Balance"). -/
def daAmount (rawLine : String) : Option ℚ :=
  let line := pyStrip rawLine
  if !(strContains line "Beginning Balance") && strContains line "Deposits and Additions" then
    extractAmount line
  else none

/-- The Electronic-Withdrawals update contributed by one raw line (under the
`elif` priority). -/
def ewAmount (rawLine : String) : Option ℚ :=
  let line := pyStrip rawLine
  if !(strContains line "Beginning Balance") && !(strContains line "Deposits and Additions") &&
     strContains line "Electronic Withdrawals" then
    extractAmount line
  else none

/-- The Ending-Balance update contributed by one raw line (under the `elif`
priority). -/
def ebAmount (rawLine : String) : Option ℚ :=
  let line := pyStrip rawLine
  if !(strContains line "Beginning Balance") && !(strContains line "Deposits and Additions") &&
     !(strContains line "Electronic Withdrawals") && strContains line "Ending Balance" then
    extractAmount line
  else none

/-- The summary fold realizes "last successful update wins" for each field. -/
lemma summary_foldl_lastD (lines : List String) : ∀ acc : CheckingSummary,
    ((lines.foldl summaryStep acc).Beginning_Balance = lastD (lines.filterMap bbAmount) acc.Beginning_Balance)
    ∧ ((lines.foldl summaryStep acc).Deposits_and_Additions = lastD (lines.filterMap daAmount) acc.Deposits_and_Additions)
    ∧ ((lines.foldl summaryStep acc).Electronic_Withdrawals = lastD (lines.filterMap ewAmount) acc.Electronic_Withdrawals)
    ∧ ((lines.foldl summaryStep acc).Ending_Balance = lastD (lines.filterMap ebAmount) acc.Ending_Balance) := by
  induction lines with
  | nil => intro acc; exact ⟨rfl, rfl, rfl, rfl⟩
  | cons l ls ih =>
    intro acc
    simp only [List.foldl_cons, List.filterMap_cons]
    cases hbb : strContains (pyStrip l) "Beginning Balance" with
    | true =>
      cases hamt : extractAmount (pyStrip l) with
      | none =>
        simp only [summaryStep, bbAmount, daAmount, ewAmount, ebAmount, hbb, hamt,
          Bool.not_true, Bool.false_and, if_true, if_false, ite_true, ite_false]
        exact ih acc
      | some a =>
        simp only [summaryStep, bbAmount, daAmount, ewAmount, ebAmount, hbb, hamt,
          Bool.not_true, Bool.false_and, if_true, if_false, ite_true, ite_false]
        exact ih { acc with Beginning_Balance := a }
    | false =>
      cases hda : strContains (pyStrip l) "Deposits and Additions" with
      | true =>
        cases hamt : extractAmount (pyStrip l) with
        | none =>
          simp only [summaryStep, bbAmount, daAmount, ewAmount, ebAmount, hbb, hda, hamt,
            Bool.not_true, Bool.not_false, Bool.false_and, Bool.true_and, if_true, if_false,
            ite_true, ite_false]
          exact ih acc
        | some a =>
          simp only [summaryStep, bbAmount, daAmount, ewAmount, ebAmount, hbb, hda, hamt,
            Bool.not_true, Bool.not_false, Bool.false_and, Bool.true_and, if_true, if_false,
            ite_true, ite_false]
          exact ih { acc with Deposits_and_Additions := a }
      | false =>
        cases hew : strContains (pyStrip l) "Electronic Withdrawals" with
        | true =>
          cases hamt : extractAmount (pyStrip l) with
          | none =>
            simp only [summaryStep, bbAmount, daAmount, ewAmount, ebAmount, hbb, hda, hew, hamt,
              Bool.not_true, Bool.not_false, Bool.false_and, Bool.true_and, if_true, if_false,
              ite_true, ite_false]
            exact ih acc
          | some a =>
            simp only [summaryStep, bbAmount, daAmount, ewAmount, ebAmount, hbb, hda, hew, hamt,
              Bool.not_true, Bool.not_false, Bool.false_and, Bool.true_and, if_true, if_false,
              ite_true, ite_false]
            exact ih { acc with Electronic_Withdrawals := a }
        | false =>
          cases heb : strContains (pyStrip l) "Ending Balance" with
          | true =>
            cases hamt : extractAmount (pyStrip l) with
            | none =>
              simp only [summaryStep, bbAmount, daAmount, ewAmount, ebAmount, hbb, hda, hew, heb,
                hamt, Bool.not_true, Bool.not_false, Bool.false_and, Bool.true_and, if_true,
                if_false, ite_true, ite_false]
              exact ih acc
            | some a =>
              simp only [summaryStep, bbAmount, daAmount, ewAmount, ebAmount, hbb, hda, hew, heb,
                hamt, Bool.not_true, Bool.not_false, Bool.false_and, Bool.true_and, if_true,
                if_false, ite_true, ite_false]
              exact ih { acc with Ending_Balance := a }
          | false =>
            simp only [summaryStep, bbAmount, daAmount, ewAmount, ebAmount, hbb, hda, hew, heb,
              Bool.not_true, Bool.not_false, Bool.false_and, Bool.true_and, if_true, if_false,
              ite_true, ite_false]
            exact ih acc

/-- C6 (counterexample). The claim says the FIRST matching line wins and later
matching lines do not change the field; but with two "Beginning Balance" lines
(100 then 200) the extractor reports 200 — the last successful match wins. -/
theorem C6_counterexample :
    (extractSummary "Beginning Balance $100.00\nBeginning Balance $200.00").Beginning_Balance = 200
    ∧ (extractSummary "Beginning Balance $100.00\nBeginning Balance $200.00").Beginning_Balance ≠ 100 := by
  exact ⟨by decide, by decide⟩

/-- C6 (amended). For each of the four summary labels, the Summary Extractor takes
its value from the LAST line containing that label (under the `elif` priority
Beginning Balance, then Deposits and Additions, then Electronic Withdrawals,
then Ending Balance) whose remainder parses as a number after stripping the
label phrases, `$` and `,`; a matching line that fails numeric parsing leaves
the field unchanged, and a field with no successful line stays at its 0.0
default. -/
theorem C6_amended_last_match_wins (text : String) :
    ((extractSummary text).Beginning_Balance = lastD ((pySplitChar text '\n').filterMap bbAmount) 0)
    ∧ ((extractSummary text).Deposits_and_Additions = lastD ((pySplitChar text '\n').filterMap daAmount) 0)
    ∧ ((extractSummary text).Electronic_Withdrawals = lastD ((pySplitChar text '\n').filterMap ewAmount) 0)
    ∧ ((extractSummary text).Ending_Balance = lastD ((pySplitChar text '\n').filterMap ebAmount) 0) := by
  exact summary_foldl_lastD (pySplitChar text '\n')
    { Beginning_Balance := 0, Deposits_and_Additions := 0, Electronic_Withdrawals := 0, Ending_Balance := 0 }

/-- The metadata fold never touches `bank_name`, and leaves `account_number`
(resp. `year`/`month`) unchanged on lines whose account (resp. period) update is
`none`. -/
lemma metadata_foldl_fields (lines : List String) : ∀ md : MetadataFields,
    ((lines.foldl metadataStep md).bank_name = md.bank_name)
    ∧ ((∀ l ∈ lines, accountUpdate (pyStrip l) = none) →
        (lines.foldl metadataStep md).account_number = md.account_number)
    ∧ ((∀ l ∈ lines, periodUpdate (pyStrip l) = none) →
        (lines.foldl metadataStep md).year = md.year ∧ (lines.foldl metadataStep md).month = md.month) := by
  induction lines with
  | nil => intro md; exact ⟨rfl, fun _ => rfl, fun _ => ⟨rfl, rfl⟩⟩
  | cons l ls ih =>
    intro md
    simp only [List.foldl_cons]
    refine ⟨?_, ?_, ?_⟩
    · -- bank_name is never written
      have hbank : (metadataStep md l).bank_name = md.bank_name := by
        simp only [metadataStep]
        cases accountUpdate (pyStrip l) with
        | none =>
          cases hp : periodUpdate (pyStrip l) with
          | none => rfl
          | some v => rcases v with ⟨m, _ | y⟩ <;> rfl
        | some n =>
          cases hp : periodUpdate (pyStrip l) with
          | none => rfl
          | some v => rcases v with ⟨m, _ | y⟩ <;> rfl
      rw [(ih (metadataStep md l)).1, hbank]
    · intro hall
      have hl := hall l (List.mem_cons_self l ls)
      have hacct : (metadataStep md l).account_number = md.account_number := by
        simp only [metadataStep, hl]
        cases hp : periodUpdate (pyStrip l) with
        | none => rfl
        | some v => rcases v with ⟨m, _ | y⟩ <;> rfl
      rw [(ih (metadataStep md l)).2.1 (fun x hx => hall x (List.mem_cons_of_mem l hx)), hacct]
    · intro hall
      have hl := hall l (List.mem_cons_self l ls)
      have hym : (metadataStep md l).year = md.year ∧ (metadataStep md l).month = md.month := by
        simp only [metadataStep, hl]
        cases accountUpdate (pyStrip l) with
        | none => exact ⟨rfl, rfl⟩
        | some n => exact ⟨rfl, rfl⟩
      obtain ⟨hy, hm⟩ := (ih (metadataStep md l)).2.2 (fun x hx => hall x (List.mem_cons_of_mem l hx))
      exact ⟨by rw [hy, hym.1], by rw [hm, hym.2]⟩

/-- C5 (counterexample). On a text where no pattern matches any line, `bank_name`
is not the empty string: it is the hard-coded constant "chasebank" (the initial
dict value, which no pattern ever sets). -/
theorem C5_counterexample :
    (extractStatementMetadata "no matching patterns here").bank_name = "chasebank"
    ∧ (extractStatementMetadata "no matching patterns here").bank_name ≠ "" := by
  exact ⟨by decide, by decide⟩

/-- C5 (amended). `account_number`, `year` and `month` each stay at the empty
string whenever no pattern for that field matches any line, but `bank_name`
never defaults to the empty string: it equals the constant "chasebank" for every
input, because no pattern ever sets it. -/
theorem C5_amended_defaults :
    (∀ text : String, (extractStatementMetadata text).bank_name = "chasebank")
    ∧ (∀ text : String, (∀ l ∈ pySplitChar text '\n', accountUpdate (pyStrip l) = none) →
        (extractStatementMetadata text).account_number = "")
    ∧ (∀ text : String, (∀ l ∈ pySplitChar text '\n', periodUpdate (pyStrip l) = none) →
        (extractStatementMetadata text).year = "" ∧ (extractStatementMetadata text).month = "") := by
  refine ⟨fun text => ?_, fun text h => ?_, fun text h => ?_⟩
  · exact (metadata_foldl_fields (pySplitChar text '\n')
      { bank_name := "chasebank", account_number := "", year := "", month := "" }).1
  · exact (metadata_foldl_fields (pySplitChar text '\n')
      { bank_name := "chasebank", account_number := "", year := "", month := "" }).2.1 h
  · exact (metadata_foldl_fields (pySplitChar text '\n')
      { bank_name := "chasebank", account_number := "", year := "", month := "" }).2.2 h

/-- C5 (witness). The amended theorem applied to the concrete no-match text. -/
theorem C5_amended_defaults_witness :
    (extractStatementMetadata "no matching patterns here").account_number = ""
    ∧ (extractStatementMetadata "no matching patterns here").year = ""
    ∧ (extractStatementMetadata "no matching patterns here").month = "" := by
  refine ⟨C5_amended_defaults.2.1 "no matching patterns here" (by decide), ?_, ?_⟩
  · exact (C5_amended_defaults.2.2 "no matching patterns here" (by decide)).1
  · exact (C5_amended_defaults.2.2 "no matching patterns here" (by decide)).2

/-- A substring of the right part of a concatenation is a substring of the whole. -/
lemma containsList_append_right (needle : List Char) (pre : List Char) :
    ∀ post : List Char, containsList needle post = true → containsList needle (pre ++ post) = true := by
  induction pre with
  | nil => intro post h; simpa using h
  | cons c cs ih =>
    intro post h
    simp only [List.cons_append, containsList, List.append_eq]
    rw [ih post h]
    simp

/-- String version of `containsList_append_right`. -/
lemma strContains_append_right (a b sub : String) (h : strContains b sub = true) :
    strContains (a ++ b) sub = true := by
  have hd : (a ++ b).data = a.data ++ b.data := rfl
  simp only [strContains, hd]
  exact containsList_append_right sub.data a.data b.data h

/-- C8. After flagging, `Flagged.is_high_value` is true iff |Amount| > 4000 (for a
transaction whose flag is still at its default, as the extractor produces them),
the reason is the text "Transaction exceeds $4000" (which references the 4000
threshold), and independently the Notes rule gives a note containing "flagged
for high amount" to any transaction with |Amount| > 1000 whose description
matches none of the earlier keyword rules (zelle, transfer+from, recurring,
payrol). -/
theorem C8_high_value_flag (t : Transaction) (hflag : t.Flagged.is_high_value = false) :
    ((flagTransaction t).Flagged.is_high_value = true ↔ |t.Amount| > 4000)
    ∧ (|t.Amount| > 4000 → (flagTransaction t).Flagged.reason = "Transaction exceeds $4000")
    ∧ strContains "Transaction exceeds $4000" "4000" = true
    ∧ (strContains (pyLower t.Description) "zelle" = false →
       (strContains (pyLower t.Description) "transfer" && strContains (pyLower t.Description) "from") = false →
       strContains (pyLower t.Description) "recurring" = false →
       strContains (pyLower t.Description) "payrol" = false →
       |t.Amount| > 1000 →
       strContains (getTransactionNotes t) "flagged for high amount" = true) := by
  refine ⟨?_, ?_, by decide, ?_⟩
  · by_cases h4 : |t.Amount| > 4000
    · have hft : flagTransaction t =
          { t with Flagged := { is_high_value := true, reason := "Transaction exceeds $4000" } } := by
        rw [flagTransaction, if_pos h4]
      rw [hft]
      exact ⟨fun _ => h4, fun _ => rfl⟩
    · have hft : flagTransaction t = t := by rw [flagTransaction, if_neg h4]
      rw [hft]
      constructor
      · intro he; rw [hflag] at he; exact absurd he Bool.false_ne_true
      · intro hc; exact absurd hc h4
  · intro h4
    have hft : flagTransaction t =
        { t with Flagged := { is_high_value := true, reason := "Transaction exceeds $4000" } } := by
      rw [flagTransaction, if_pos h4]
    rw [hft]
  · intro h1 h2 h3 hp h6
    simp only [getTransactionNotes, h1, h2, h3, hp, Bool.false_eq_true, if_false, ite_false]
    rw [if_pos h6]
    have hbase : strContains " flagged for high amount." "flagged for high amount" = true := by decide
    exact strContains_append_right t.Category " flagged for high amount." "flagged for high amount" hbase

/-- A concrete high-value withdrawal whose description matches no keyword rule. -/
def highValueSample : Transaction :=
  { id := 1, Date := "01/07", Description := "BIG STORE PURCHASE", Transaction_Type := "Withdrawal",
    Category := "Other", Amount := -4500, Balance := 0, Category_Confidence := 0,
    Location := "", Notes := "", Flagged := {} }

/-- C8 (witness). The flag theorem applied to a concrete −4500.00 transaction. -/
theorem C8_high_value_flag_witness :
    highValueSample.Flagged.is_high_value = false
    ∧ (((flagTransaction highValueSample).Flagged.is_high_value = true ↔ |highValueSample.Amount| > 4000)
      ∧ (|highValueSample.Amount| > 4000 →
          (flagTransaction highValueSample).Flagged.reason = "Transaction exceeds $4000")
      ∧ strContains "Transaction exceeds $4000" "4000" = true
      ∧ (strContains (pyLower highValueSample.Description) "zelle" = false →
         (strContains (pyLower highValueSample.Description) "transfer" &&
          strContains (pyLower highValueSample.Description) "from") = false →
         strContains (pyLower highValueSample.Description) "recurring" = false →
         strContains (pyLower highValueSample.Description) "payrol" = false →
         |highValueSample.Amount| > 1000 →
         strContains (getTransactionNotes highValueSample) "flagged for high amount" = true)) :=
  ⟨rfl, C8_high_value_flag highValueSample rfl⟩

/-- C10. In the Notes rule order the |amount| > 1000 high-amount rule is evaluated
after the zelle, transfer+from, recurring and payrol keyword rules but BEFORE
the turo and premium keyword rules: a transaction whose description contains
"turo" or "premium" (and none of the earlier keywords) with |Amount| > 1000 gets
the note "<Category> flagged for high amount." rather than the turo/premium
note. -/
theorem C10_high_amount_note_precedes_turo_premium (t : Transaction)
    (h1 : strContains (pyLower t.Description) "zelle" = false)
    (h2 : (strContains (pyLower t.Description) "transfer" && strContains (pyLower t.Description) "from") = false)
    (h3 : strContains (pyLower t.Description) "recurring" = false)
    (h4 : strContains (pyLower t.Description) "payrol" = false)
    (_h5 : strContains (pyLower t.Description) "turo" = true ∨ strContains (pyLower t.Description) "premium" = true)
    (h6 : |t.Amount| > 1000) :
    getTransactionNotes t = t.Category ++ " flagged for high amount." := by
  simp only [getTransactionNotes, h1, h2, h3, h4, Bool.false_eq_true, if_false, ite_false]
  rw [if_pos h6]

/-- A concrete Turo transaction with a large amount and no earlier keyword. -/
def turoSample : Transaction :=
  { id := 2, Date := "01/08", Description := "Turo Trip Income", Transaction_Type := "Withdrawal",
    Category := "Car Rental", Amount := -1500, Balance := 0, Category_Confidence := 0,
    Location := "", Notes := "", Flagged := {} }

/-- C10 (witness). The rule-order theorem applied to a concrete "turo" description
with |Amount| = 1500 > 1000: the note is the high-amount note, not the Turo
note. -/
theorem C10_high_amount_note_witness :
    strContains (pyLower turoSample.Description) "zelle" = false
    ∧ (strContains (pyLower turoSample.Description) "transfer" &&
       strContains (pyLower turoSample.Description) "from") = false
    ∧ strContains (pyLower turoSample.Description) "recurring" = false
    ∧ strContains (pyLower turoSample.Description) "payrol" = false
    ∧ (strContains (pyLower turoSample.Description) "turo" = true ∨
       strContains (pyLower turoSample.Description) "premium" = true)
    ∧ |turoSample.Amount| > 1000
    ∧ getTransactionNotes turoSample = "Car Rental flagged for high amount." :=
  ⟨by decide, by decide, by decide, by decide, Or.inl (by decide), by decide,
   C10_high_amount_note_precedes_turo_premium turoSample (by decide) (by decide) (by decide)
     (by decide) (Or.inl (by decide)) (by decide)⟩

/-- The type component of the categorizer is the sign test. -/
lemma categorize_fst (d : String) (a : ℚ) :
    (categorizeTransaction d a).1 = if a > 0 then "Deposit" else "Withdrawal" := rfl

/-- The sign/type invariant written out for a transaction. -/
def typeSignOk (t : Transaction) : Prop :=
  (t.Transaction_Type = "Deposit" ↔ 0 < t.Amount) ∧ (t.Transaction_Type = "Withdrawal" ↔ t.Amount ≤ 0)

/-- Every transaction built by `mkTransaction` satisfies the (amended) sign/type
invariant: Deposit iff positive, Withdrawal iff nonpositive. -/
lemma mkTransaction_typeSignOk (n : ℤ) (date d : String) (a b : ℚ) :
    typeSignOk (mkTransaction n date d a b) := by
  show ((categorizeTransaction d a).1 = "Deposit" ↔ 0 < a) ∧
       ((categorizeTransaction d a).1 = "Withdrawal" ↔ a ≤ 0)
  rw [categorize_fst]
  by_cases h0 : a > 0
  · rw [if_pos h0]
    exact ⟨⟨fun _ => h0, fun _ => rfl⟩,
           ⟨fun he => absurd he (by decide), fun hle => absurd h0 (not_lt.mpr hle)⟩⟩
  · rw [if_neg h0]
    exact ⟨⟨fun he => absurd he (by decide), fun hc => absurd hc h0⟩,
           ⟨fun _ => le_of_not_lt h0, fun _ => rfl⟩⟩

/-- Every transaction accepted by the line parser is an `mkTransaction`. -/
lemma parseTransactionLine_shape {line : String} {n : ℤ} {t : Transaction}
    (h : parseTransactionLine line n = some t) :
    ∃ date d a b, t = mkTransaction n date d a b := by
  simp only [parseTransactionLine] at h
  split at h
  · split at h
    · exact Option.noConfusion h
    · split at h
      · exact ⟨_, _, _, _, ((Option.some.injEq _ _).mp h).symm⟩
      · exact Option.noConfusion h
  · exact Option.noConfusion h

/-- One step of the extraction loop either keeps the accumulator or appends one
accepted transaction. -/
lemma processLine_acc (st : ExtState) (l : String) :
    (processLine st l).acc = st.acc ∨
    ∃ t, parseTransactionLine (pyStrip l) st.nextId = some t ∧ (processLine st l).acc = st.acc ++ [t] := by
  simp only [processLine]
  split
  · exact Or.inl rfl
  · split
    · exact Or.inl rfl
    · split
      · exact Or.inl rfl
      · split
        · split
          · exact Or.inl rfl
          · split
            · next t heq => exact Or.inr ⟨t, heq, rfl⟩
            · exact Or.inl rfl
        · exact Or.inl rfl

/-- The extraction loop only ever accumulates transactions satisfying the
sign/type invariant. -/
lemma foldl_processLine_typeSignOk (lines : List String) : ∀ st : ExtState,
    (∀ t ∈ st.acc, typeSignOk t) → ∀ t ∈ (lines.foldl processLine st).acc, typeSignOk t := by
  induction lines with
  | nil => intro st h; simpa using h
  | cons l ls ih =>
    intro st h
    refine ih (processLine st l) ?_
    rcases processLine_acc st l with hca | ⟨u, hu, hca⟩
    · rw [hca]; exact h
    · rw [hca]
      intro t ht
      rcases List.mem_append.mp ht with hmem | hmem
      · exact h t hmem
      · obtain ⟨date, d, a, b, hEq⟩ := parseTransactionLine_shape hu
        rw [List.mem_singleton.mp hmem, hEq]
        exact mkTransaction_typeSignOk _ date d a b

/-- Membership in a key-directed insertion comes from the inserted element or the
original list. -/
lemma mem_insertByKey {x y : Transaction × ℤ × ℤ} :
    ∀ {l : List (Transaction × ℤ × ℤ)}, y ∈ insertByKey x l → y = x ∨ y ∈ l := by
  intro l
  induction l with
  | nil => intro h; simp only [insertByKey] at h; exact Or.inl (List.mem_singleton.mp h)
  | cons z zs ih =>
    intro h
    simp only [insertByKey] at h
    split at h
    · rcases List.mem_cons.mp h with hz | hrest
      · exact Or.inr (hz ▸ List.mem_cons_self z zs)
      · rcases ih hrest with hx | hzs
        · exact Or.inl hx
        · exact Or.inr (List.mem_cons_of_mem z hzs)
    · rcases List.mem_cons.mp h with hx | hrest
      · exact Or.inl hx
      · exact Or.inr hrest

/-- Membership after the insertion-sort fold comes from the seed or the input. -/
lemma mem_sort_foldl : ∀ (l acc : List (Transaction × ℤ × ℤ)) (y : Transaction × ℤ × ℤ),
    y ∈ l.foldl (fun a x => insertByKey x a) acc → y ∈ acc ∨ y ∈ l := by
  intro l
  induction l with
  | nil => intro acc y h; exact Or.inl h
  | cons x xs ih =>
    intro acc y h
    rcases ih (insertByKey x acc) y h with hacc | hxs
    · rcases mem_insertByKey hacc with hx | hacc2
      · exact Or.inr (hx ▸ List.mem_cons_self x xs)
      · exact Or.inl hacc2
    · exact Or.inr (List.mem_cons_of_mem x hxs)

/-- Every pair produced by the key pass carries a transaction of the input list. -/
lemma annotateKeys_mem : ∀ {l : List Transaction} {kl : List (Transaction × ℤ × ℤ)},
    annotateKeys l = Except.ok kl → ∀ p ∈ kl, p.1 ∈ l := by
  intro l
  induction l with
  | nil => intro kl h p hp; simp only [annotateKeys] at h; cases h; exact absurd hp (List.not_mem_nil p)
  | cons t ts ih =>
    intro kl h p hp
    simp only [annotateKeys] at h
    split at h
    · exact Except.noConfusion h
    · split at h
      · exact Except.noConfusion h
      · next rest hrest =>
        cases h
        rcases List.mem_cons.mp hp with hfst | hrest2
        · rw [hfst]; exact List.mem_cons_self t ts
        · exact List.mem_cons_of_mem t (ih hrest p hrest2)

/-- C2 (counterexample). The extractor accepts a transaction line with amount
exactly 0.00 and types it "Withdrawal", although its amount is not strictly
negative — the claimed sign/type equivalence fails at amount 0. -/
theorem C2_counterexample :
    ∃ t, extractTransactions "TRANSACTION DETAIL\n01/05 FOO 0.00 100.00" = Except.ok [t]
      ∧ t.Transaction_Type = "Withdrawal" ∧ ¬ (t.Amount < 0) := by
  refine ⟨mkTransaction 1 "01/05" "FOO" 0 100, by decide, by decide, by decide⟩

/-- C2 (amended). For every transaction produced by the Transaction Extractor (for
any input text on which it returns), Transaction_Type is "Deposit" iff Amount is
strictly positive and "Withdrawal" iff Amount ≤ 0: the sign matches the type for
every nonzero amount, but an amount of exactly 0 is typed "Withdrawal". -/
theorem C2_amended_sign_type (text : String) (ts : List Transaction)
    (h : extractTransactions text = Except.ok ts) :
    ∀ t ∈ ts, (t.Transaction_Type = "Deposit" ↔ 0 < t.Amount)
      ∧ (t.Transaction_Type = "Withdrawal" ↔ t.Amount ≤ 0) := by
  intro t ht
  simp only [extractTransactions] at h
  split at h
  · exact Except.noConfusion h
  · next keyed hkeyed =>
    cases h
    obtain ⟨p, hp, hpt⟩ := List.mem_map.mp ht
    have hpk : p ∈ keyed := by
      rcases mem_sort_foldl keyed [] p hp with hnil | hk
      · exact absurd hnil (List.not_mem_nil p)
      · exact hk
    have hparsed := annotateKeys_mem hkeyed p hpk
    have := foldl_processLine_typeSignOk (pySplitChar text '\n')
      { start := false, nextId := 1, acc := [] } (by intro u hu; exact absurd hu (List.not_mem_nil u))
      p.1 hparsed
    exact hpt ▸ this

/-- C2 (witness). The amended sign/type theorem applied to the concrete
zero-amount input. -/
theorem C2_amended_sign_type_witness :
    extractTransactions "TRANSACTION DETAIL\n01/05 FOO 0.00 100.00" =
      Except.ok [mkTransaction 1 "01/05" "FOO" 0 100]
    ∧ (((mkTransaction 1 "01/05" "FOO" 0 100).Transaction_Type = "Deposit" ↔
          0 < (mkTransaction 1 "01/05" "FOO" 0 100).Amount)
      ∧ ((mkTransaction 1 "01/05" "FOO" 0 100).Transaction_Type = "Withdrawal" ↔
          (mkTransaction 1 "01/05" "FOO" 0 100).Amount ≤ 0)) :=
  ⟨by decide,
   C2_amended_sign_type "TRANSACTION DETAIL\n01/05 FOO 0.00 100.00"
     [mkTransaction 1 "01/05" "FOO" 0 100] (by decide)
     (mkTransaction 1 "01/05" "FOO" 0 100) (List.mem_singleton.mpr rfl)⟩

/-- Erase the two metadata fields that follow the wall clock
(`processing_duration` and `parsed_on`). -/
def scrubTimeFields (d : StatementData) : StatementData :=
  { d with metadata := { d.metadata with processing_duration := "", parsed_on := "" } }

/-- Erase only `processing_duration` (the single field the idempotence claim
excludes). -/
def scrubDuration (d : StatementData) : StatementData :=
  { d with metadata := { d.metadata with processing_duration := "" } }

/-- A statement text on which the whole pipeline succeeds. -/
def idempotenceText : String :=
  "Beginning Balance $100.00\nTRANSACTION DETAIL\n01/05 ZELLE TRANSFER FROM JOHN 50.00 150.00\nEnding Balance $150.00"

/-- A first wall-clock reading. -/
def envA1 : Env := { endTime := 3, nowUtc := "2025-06-01T10:00:00Z", nowYear := 2025 }

/-- A second reading seven seconds later: same end time and year, different UTC
stamp. -/
def envA2 : Env := { endTime := 3, nowUtc := "2025-06-01T10:00:07Z", nowYear := 2025 }

/-- A reading the next day: different end time and UTC stamp, same year. -/
def envA3 : Env := { endTime := 9, nowUtc := "2025-06-02T08:30:00Z", nowYear := 2025 }

/-- C7 (counterexample). Two runs on identical text, start time and file bytes
are NOT identical up to `processing_duration` alone: `parsed_on` is stamped from
`datetime.utcnow()` at run time, so runs at different instants differ there too
(here even with equal `processing_duration`). -/
theorem C7_counterexample :
    (parseStatementText idempotenceText 0 [] envA1).map scrubDuration ≠
    (parseStatementText idempotenceText 0 [] envA2).map scrubDuration := by
  decide

/-- C7 (amended). With the wall-clock readings made explicit inputs, the pipeline
is deterministic: two runs on identical input text, identical file bytes and an
identical injected start time that observe the same current year (used by
`date_range_covered`) yield identical `StatementData` results except for
`processing_duration` and `parsed_on`, which follow the clock readings. -/
theorem C7_amended_deterministic (text : String) (s : ℚ) (f : List Nat) (e1 e2 : Env)
    (hy : e1.nowYear = e2.nowYear) :
    (parseStatementText text s f e1).map scrubTimeFields =
    (parseStatementText text s f e2).map scrubTimeFields := by
  simp only [parseStatementText]
  rw [hy]
  cases hT : extractTransactions text with
  | error e => rfl
  | ok ts =>
    dsimp only
    cases hS : calculateSpendingAnalysis (ts.map flagTransaction) with
    | error e => rfl
    | ok sp =>
      dsimp only
      cases hD : getDateRange ((ts.map flagTransaction).map enrichTransaction) e2.nowYear with
      | error e => rfl
      | ok dr => rfl

/-- C7 (witness). The determinism theorem applied to the concrete text and two
concrete clock readings in the same year. -/
theorem C7_amended_deterministic_witness :
    envA1.nowYear = envA3.nowYear ∧
    (parseStatementText idempotenceText 0 [] envA1).map scrubTimeFields =
    (parseStatementText idempotenceText 0 [] envA3).map scrubTimeFields :=
  ⟨rfl, C7_amended_deterministic idempotenceText 0 [] envA1 envA3 rfl⟩

end BankAPI
